import Mathlib

/-!
# Acquisitions authentication service

A shallow embedding of the credential and session lifecycle of the service:

* `src/services/auth.service.js` : `hashPassword`, `comparePassword`, `createUser`,
  `authenticateUser`;
* `src/utils/jwt.js` : `JWT_SECRET`, `JWT_EXPIRES_IN`, `jwttoken.sign`, `jwttoken.verify`;
* `src/controllers/auth.controller.js` : `signUp`, `signIn`, `signOut`.

Thrown JavaScript errors are values `Except.error msg` carrying `error.message`.
The database is passed explicitly: a handler maps the store before the request to the
store after it, together with what was written on the response channel.
Third-party primitives (bcrypt, the HMAC of jsonwebtoken, the zod schemas) are the
fields of `Env`; a primitive that throws is a field returning `none`.
Times are milliseconds, as returned by `Date.now()`.
-/

namespace Acquisitions

/-! ## Data model -/

/-- Row of the `users` table. -/
structure UserRow where
  id : Nat
  name : String
  email : String
  password : String
  role : String
  created_at : Nat
deriving DecidableEq, Repr

/-- The object the services return: the columns listed in `returning`, no password. -/
structure User where
  id : Nat
  name : String
  email : String
  role : String
  created_at : Nat
deriving DecidableEq, Repr

/-- The Identity Store: the rows of `users` and the next value of the `id` sequence. -/
structure Db where
  rows : List UserRow
  nextId : Nat
deriving DecidableEq, Repr

/-- The payload jsonwebtoken signs: the claims given to `jwt.sign` plus `iat` and `exp`
(seconds since the epoch), which the library adds under the `expiresIn` option. -/
structure JwtPayload where
  id : Nat
  email : String
  role : String
  iat : Nat
  exp : Nat
deriving DecidableEq, Repr

/-- The claims object `{id, email, role}` handed to `jwttoken.sign`. -/
structure Claims where
  id : Nat
  email : String
  role : String
deriving DecidableEq, Repr

/-- A well-formed compact JWT: its decoded payload and its signature. -/
structure Token where
  payload : JwtPayload
  signature : Nat
deriving DecidableEq, Repr

/-- The claims part of a decoded payload. -/
def JwtPayload.claims (p : JwtPayload) : Claims :=
  { id := p.id, email := p.email, role := p.role }

/-- The parsed request body `req.body`: each property is present or undefined. -/
structure Body where
  name : Option String
  email : Option String
  password : Option String
  role : Option String
deriving DecidableEq, Repr

/-- An incoming request: the body and the `token` cookie, if any. -/
structure Request where
  body : Body
  cookieToken : Option Token
deriving DecidableEq, Repr

/-- The `validationResult.data` of the sign-up schema. -/
structure SignUpData where
  name : String
  email : String
  password : String
  role : Option String
deriving DecidableEq, Repr

/-- The `validationResult.data` of the sign-in schema. -/
structure SignInData where
  email : String
  password : String
deriving DecidableEq, Repr

/-- The collaborators the source imports from outside the repository sources at hand:
zod schemas, bcrypt, the HS256 primitive of jsonwebtoken and the process environment.
A field returning `none` stands for a primitive that throws. -/
structure Env where
  signUpSchema : Body → Except String SignUpData
  signInSchema : Body → Except String SignInData
  formatValidationError : String → String
  bcryptHash : String → Nat → Option String
  bcryptCompare : String → String → Option Bool
  hs256 : String → JwtPayload → Option Nat
  envJwtSecret : Option String
  envNodeEnv : Option String

/-! ## Response channel -/

/-- A JSON scalar. -/
inductive Scalar where
  | num (n : Nat)
  | str (s : String)
deriving DecidableEq, Repr

/-- A JSON value as the handlers build them: a scalar or a flat object. -/
inductive JsonVal where
  | scalar (v : Scalar)
  | obj (fields : List (String × Scalar))
deriving DecidableEq, Repr

/-- Cookie attributes. -/
structure CookieOptions where
  httpOnly : Bool
  secure : Bool
  sameSite : String
  maxAge : Nat
deriving DecidableEq, Repr

/-- An instruction written on the response by the Session Transport. -/
inductive CookieOp where
  | set (name : String) (value : Token) (opts : CookieOptions)
  | clear (name : String) (opts : CookieOptions)
deriving DecidableEq, Repr

/-- What a handler leaves on `res` and `next`: the status and JSON body (if it
responded), the cookie instructions, and the message of the error passed to `next`. -/
structure Response where
  status : Option Nat
  body : Option (List (String × JsonVal))
  cookieOps : List CookieOp
  forwarded : Option String
deriving DecidableEq, Repr

/-- A response on which nothing has been written yet. -/
def Response.fresh : Response :=
  { status := none, body := none, cookieOps := [], forwarded := none }

/-- The call `res.status(code).json(body)`. -/
def Response.json (res : Response) (code : Nat) (body : List (String × JsonVal)) : Response :=
  { res with status := some code, body := some body }

/-- The call `next(error)`. -/
def Response.next (res : Response) (msg : String) : Response :=
  { res with forwarded := some msg }

/-- The keys of a JSON object, in order. -/
def keysOf (fields : List (String × Scalar)) : List String :=
  fields.map Prod.fst

/-- Modelled from the spec: `#utils/cookies.js` is missing; section 4.4 gives the
attributes HTTP-only, secure in production, same-site strict, max age one day. -/
def cookies.getOptions (E : Env) : CookieOptions :=
  { httpOnly := true
    secure := E.envNodeEnv == some "production"
    sameSite := "strict"
    maxAge := 24 * 60 * 60 * 1000 }

/-- Modelled from the spec: `#utils/cookies.js` is missing; `attach` sets the token on
the outbound channel. -/
def cookies.set (E : Env) (res : Response) (name : String) (value : Token) : Response :=
  { res with cookieOps := res.cookieOps ++ [CookieOp.set name value (cookies.getOptions E)] }

/-- Modelled from the spec: `#utils/cookies.js` is missing; `detach` clears the token
on the outbound channel with the same attributes. -/
def cookies.clear (E : Env) (res : Response) (name : String) : Response :=
  { res with cookieOps := res.cookieOps ++ [CookieOp.clear name (cookies.getOptions E)] }

/-! ## Identity Store -/

/-- A drizzle query that has been built: awaiting it yields `rows`. -/
structure Query where
  rows : List UserRow
deriving DecidableEq, Repr

/-- The value bound to `existingUser`: the array of rows when the query was awaited,
the query builder object itself when it was not. -/
inductive Selected where
  | awaited (rows : List UserRow)
  | pending (q : Query)
deriving DecidableEq, Repr

/-- The property read `.length`: the length of an array, `undefined` (here `none`) on a
query builder, which has no such property. -/
def Selected.length : Selected → Option Nat
  | .awaited rows => some rows.length
  | .pending _ => none

/-- The element read `[0]`: the first row of an array, `undefined` otherwise. -/
def Selected.first : Selected → Option UserRow
  | .awaited rows => rows.head?
  | .pending _ => none

/-- JavaScript `x > n` for `x` a number or `undefined`: `undefined` converts to `NaN`
and every comparison with `NaN` is false. -/
def jsGt (x : Option Nat) (n : Nat) : Bool :=
  match x with
  | some m => decide (n < m)
  | none => false

/-- JavaScript `x === n` for `x` a number or `undefined`. -/
def jsStrictEq (x : Option Nat) (n : Nat) : Bool :=
  match x with
  | some m => decide (m = n)
  | none => false

/-- The query `db.select().from(users).where(eq(users.email, email)).limit(1)`. -/
def Db.selectByEmail (db : Db) (email : String) : Query :=
  { rows := (db.rows.filter (fun r => r.email == email)).take 1 }

/-- Modelled from the spec: the database driver is missing; this is the message of the
storage error raised for a duplicate email, in the wording of PostgreSQL. It is not a
message that the services themselves throw. -/
def uniqueViolation : String :=
  "duplicate key value violates unique constraint users_email_unique"

/-- Modelled from the spec: `#models/user.model.js` and `#config/database.js` are
missing; the Identity Store enforces email uniqueness, assigns the id and the creation
timestamp, and rejects a colliding insert with a storage error, leaving the table as
it was. -/
def Db.insert (db : Db) (now : Nat) (name email password role : String) :
    Db × Except String UserRow :=
  if db.rows.any (fun r => r.email == email) then
    (db, .error uniqueViolation)
  else
    let row : UserRow :=
      { id := db.nextId, name := name, email := email, password := password,
        role := role, created_at := now }
    ({ rows := db.rows ++ [row], nextId := db.nextId + 1 }, .ok row)

/-- The uniqueness invariant of the store: one row per email, and the id sequence is
ahead of every id in use. -/
def Db.WellFormed (db : Db) : Prop :=
  (db.rows.map (fun r => r.email)).Nodup ∧ ∀ r ∈ db.rows, r.id < db.nextId

/-! ## `src/services/auth.service.js` -/

/-- The function `hashPassword`: `bcrypt.hash(password, 10)`, any failure rethrown as
`Password hashing failed`. -/
def hashPassword (E : Env) (password : String) : Except String String :=
  match E.bcryptHash password 10 with
  | some h => .ok h
  | none => .error "Password hashing failed"

/-- The function `comparePassword`: `bcrypt.compare`, any failure rethrown as
`Password comparison failed`. -/
def comparePassword (E : Env) (password hashedPassword : String) : Except String Bool :=
  match E.bcryptCompare password hashedPassword with
  | some b => .ok b
  | none => .error "Password comparison failed"

/-- The function `createUser`. The select is built and bound to `existingUser` without
`await`, so the guard reads `.length` of the query builder. The `catch` logs and
rethrows, so errors pass through unchanged. -/
def createUser (E : Env) (db : Db) (now : Nat) (d : SignUpData) : Db × Except String User :=
  let existingUser := Selected.pending (db.selectByEmail d.email)
  if jsGt existingUser.length 0 then
    (db, .error "User with this email already exists")
  else
    match hashPassword E d.password with
    | .error e => (db, .error e)
    | .ok hashedPassword =>
      match db.insert now d.name d.email hashedPassword (d.role.getD "user") with
      | (db', .error e) => (db', .error e)
      | (db', .ok row) =>
        (db', .ok { id := row.id, name := row.name, email := row.email, role := row.role,
                    created_at := row.created_at })

/-- The function `createUser` when other requests are served while it runs. The
`await` on `hashPassword` yields to the event loop, so the store that the insert meets
is `others db`: the store the pre-check was built on, after the writes of the requests
served in between. With `others` the identity this is `createUser`. -/
def createUserInterleaved (E : Env) (others : Db → Db) (db : Db) (now : Nat) (d : SignUpData) :
    Db × Except String User :=
  let existingUser := Selected.pending (db.selectByEmail d.email)
  if jsGt existingUser.length 0 then
    (db, .error "User with this email already exists")
  else
    match hashPassword E d.password with
    | .error e => (others db, .error e)
    | .ok hashedPassword =>
      match (others db).insert now d.name d.email hashedPassword (d.role.getD "user") with
      | (db', .error e) => (db', .error e)
      | (db', .ok row) =>
        (db', .ok { id := row.id, name := row.name, email := row.email, role := row.role,
                    created_at := row.created_at })

/-- The function `authenticateUser`. Here the select is awaited. -/
def authenticateUser (E : Env) (db : Db) (email password : String) : Except String User :=
  let existingUser := Selected.awaited (db.selectByEmail email).rows
  if jsStrictEq existingUser.length 0 then
    .error "User not found"
  else
    match existingUser.first with
    | none => .error "Cannot read properties of undefined"
    | some row =>
      match comparePassword E password row.password with
      | .error e => .error e
      | .ok isPasswordValid =>
        if !isPasswordValid then
          .error "Invalid password"
        else
          .ok { id := row.id, name := row.name, email := row.email, role := row.role,
                created_at := row.created_at }

/-! ## `src/utils/jwt.js` -/

/-- The constant `JWT_SECRET`: `process.env.JWT_SECRET || <default>`; an unset or empty
variable is falsy and falls through to the default. -/
def JWT_SECRET (E : Env) : String :=
  match E.envJwtSecret with
  | some s => if s = "" then "your-secret-key-change-this-in-production" else s
  | none => "your-secret-key-change-this-in-production"

/-- The constant `JWT_EXPIRES_IN = 1d`, in seconds. -/
def JWT_EXPIRES_IN : Nat := 24 * 60 * 60

/-- The library call `jwt.sign(payload, secret, {expiresIn})` of jsonwebtoken: `iat` is
the clock in whole seconds, `exp` is `iat` plus the lifetime, and the payload is signed
with HS256. -/
def jwtSign (E : Env) (now : Nat) (c : Claims) (secret : String) (expiresIn : Nat) :
    Except String Token :=
  let iat := now / 1000
  let payload : JwtPayload :=
    { id := c.id, email := c.email, role := c.role, iat := iat, exp := iat + expiresIn }
  match E.hs256 secret payload with
  | some sig => .ok { payload := payload, signature := sig }
  | none => .error "secretOrPrivateKey must have a value"

/-- The library call `jwt.verify(token, secret)` of jsonwebtoken: the signature is
recomputed and compared, then the token is rejected once the clock in whole seconds
has reached `exp`; otherwise the decoded payload is returned. -/
def jwtVerify (E : Env) (now : Nat) (token : Token) (secret : String) :
    Except String JwtPayload :=
  match E.hs256 secret token.payload with
  | none => .error "secretOrPublicKey must be provided"
  | some sig =>
    if sig ≠ token.signature then
      .error "invalid signature"
    else if now / 1000 ≥ token.payload.exp then
      .error "jwt expired"
    else
      .ok token.payload

/-- The method `jwttoken.sign`. -/
def jwttoken.sign (E : Env) (now : Nat) (payload : Claims) : Except String Token :=
  match jwtSign E now payload (JWT_SECRET E) JWT_EXPIRES_IN with
  | .ok t => .ok t
  | .error _ => .error "Failed to Authenticate Token"

/-- The method `jwttoken.verify`. -/
def jwttoken.verify (E : Env) (now : Nat) (token : Token) : Except String JwtPayload :=
  match jwtVerify E now token (JWT_SECRET E) with
  | .ok p => .ok p
  | .error _ => .error "Failed to Verify Token"

/-! ## `src/controllers/auth.controller.js` -/

/-- The `user` object of the success bodies. -/
def userJson (user : User) : JsonVal :=
  .obj [("id", .num user.id), ("name", .str user.name), ("email", .str user.email),
        ("role", .str user.role)]

/-- The response to a schema rejection, in both `signUp` and `signIn`. -/
def validationFailed (E : Env) (err : String) : Response :=
  Response.fresh.json 400
    [("error", .scalar (.str "Validation Failed")),
     ("details", .scalar (.str (E.formatValidationError err)))]

/-- The `catch` block of `signUp`. -/
def signUpCatch (res : Response) (msg : String) : Response :=
  if msg = "User with this email already exists" then
    res.json 409 [("error", .scalar (.str "Email already registered"))]
  else
    res.next msg

/-- The `catch` block of `signIn`. -/
def signInCatch (res : Response) (msg : String) : Response :=
  if msg = "User not found" ∨ msg = "Invalid password" then
    res.json 401 [("error", .scalar (.str "Invalid credentials"))]
  else
    res.next msg

/-- The handler `signUp`. -/
def signUp (E : Env) (db : Db) (now : Nat) (req : Request) : Db × Response :=
  match E.signUpSchema req.body with
  | .error err => (db, validationFailed E err)
  | .ok data =>
    match createUser E db now data with
    | (db', .error msg) => (db', signUpCatch Response.fresh msg)
    | (db', .ok user) =>
      match jwttoken.sign E now { id := user.id, email := user.email, role := user.role } with
      | .error msg => (db', signUpCatch Response.fresh msg)
      | .ok token =>
        let res := cookies.set E Response.fresh "token" token
        (db', res.json 201
          [("message", .scalar (.str "User registered")), ("user", userJson user)])

/-- The handler `signUp` when other requests are served while `createUser` runs; see
`createUserInterleaved`. With `others` the identity this is `signUp`. -/
def signUpInterleaved (E : Env) (others : Db → Db) (db : Db) (now : Nat) (req : Request) :
    Db × Response :=
  match E.signUpSchema req.body with
  | .error err => (db, validationFailed E err)
  | .ok data =>
    match createUserInterleaved E others db now data with
    | (db', .error msg) => (db', signUpCatch Response.fresh msg)
    | (db', .ok user) =>
      match jwttoken.sign E now { id := user.id, email := user.email, role := user.role } with
      | .error msg => (db', signUpCatch Response.fresh msg)
      | .ok token =>
        let res := cookies.set E Response.fresh "token" token
        (db', res.json 201
          [("message", .scalar (.str "User registered")), ("user", userJson user)])

/-- The handler `signIn`. -/
def signIn (E : Env) (db : Db) (now : Nat) (req : Request) : Db × Response :=
  match E.signInSchema req.body with
  | .error err => (db, validationFailed E err)
  | .ok data =>
    match authenticateUser E db data.email data.password with
    | .error msg => (db, signInCatch Response.fresh msg)
    | .ok user =>
      match jwttoken.sign E now { id := user.id, email := user.email, role := user.role } with
      | .error msg => (db, signInCatch Response.fresh msg)
      | .ok token =>
        let res := cookies.set E Response.fresh "token" token
        (db, res.json 200
          [("message", .scalar (.str "User signed in")), ("user", userJson user)])

/-- The handler `signOut`. -/
def signOut (E : Env) (db : Db) (_req : Request) : Db × Response :=
  let res := cookies.clear E Response.fresh "token"
  (db, res.json 200 [("message", .scalar (.str "User signed out"))])

/-! ## A concrete environment -/

/-- A sign-up schema: name, email and password are required, role is optional. -/
def sampleSignUpSchema (b : Body) : Except String SignUpData :=
  match b.name, b.email, b.password with
  | some n, some e, some p => .ok { name := n, email := e, password := p, role := b.role }
  | _, _, _ => .error "Required"

/-- A sign-in schema: email and password are required. -/
def sampleSignInSchema (b : Body) : Except String SignInData :=
  match b.email, b.password with
  | some e, some p => .ok { email := e, password := p }
  | _, _ => .error "Required"

/-- An environment in which every primitive works: the hash of a password is the
password behind a fixed marker and the signature is a checksum of secret and payload. -/
def sampleEnv : Env :=
  { signUpSchema := sampleSignUpSchema
    signInSchema := sampleSignInSchema
    formatValidationError := fun e => e
    bcryptHash := fun p _ => some ("h:" ++ p)
    bcryptCompare := fun p h => some (h == "h:" ++ p)
    hs256 := fun s p => some (s.length + p.id + p.email.length + p.role.length + p.iat + p.exp)
    envJwtSecret := none
    envNodeEnv := none }

/-- The environment `sampleEnv` with a signing primitive that throws. -/
def brokenSignEnv : Env :=
  { sampleEnv with hs256 := fun _ _ => none }

/-- The user Ann as stored by `sampleEnv`. -/
def annRow : UserRow :=
  { id := 1, name := "Ann", email := "a@x.com", password := "h:secret123", role := "user",
    created_at := 0 }

/-- A store holding Ann. -/
def annDb : Db := { rows := [annRow], nextId := 2 }

/-- The empty store. -/
def emptyDb : Db := { rows := [], nextId := 1 }

/-- The sign-up request of Ann. -/
def annSignUp : Request :=
  { body := { name := some "Ann", email := some "a@x.com", password := some "secret123",
              role := none }
    cookieToken := none }

/-- A sign-in request for the given email and password. -/
def signInReq (email password : String) : Request :=
  { body := { name := none, email := some email, password := some password, role := none }
    cookieToken := none }

/-- A request with an empty body. -/
def emptyReq : Request :=
  { body := { name := none, email := none, password := none, role := none }
    cookieToken := none }

/-- The user Bob as stored by `sampleEnv`. -/
def bobRow : UserRow :=
  { id := 2, name := "Bob", email := "b@x.com", password := "h:hunter22", role := "admin",
    created_at := 3 }

/-- A store holding Bob only. -/
def bobDb : Db := { rows := [bobRow], nextId := 3 }

/-- A store holding Ann and Bob. -/
def twoDb : Db := { rows := [annRow, bobRow], nextId := 3 }

/-- The sign-up request of Bob, with a role. -/
def bobSignUp : Request :=
  { body := { name := some "Bob", email := some "b@x.com", password := some "hunter22",
              role := some "admin" }
    cookieToken := none }

/-- The write of a concurrent request: another registration of `a@x.com` completes. -/
def annArrives (db : Db) : Db :=
  (db.insert 5 "Ann" "a@x.com" "h:other" "user").1

/-! ## Lemmas on the store -/

theorem take_one_filter_email (rows : List UserRow) (u : UserRow)
    (hnd : (rows.map (fun r => r.email)).Nodup) (hu : u ∈ rows) :
    (rows.filter (fun r => r.email == u.email)).take 1 = [u] := by
  induction rows with
  | nil => cases hu
  | cons r rs ih =>
    rw [List.map_cons, List.nodup_cons] at hnd
    rcases List.mem_cons.mp hu with h | h
    · subst h
      simp [List.filter_cons]
    · have hne : r.email ≠ u.email := by
        intro heq
        exact hnd.1 (heq ▸ List.mem_map_of_mem (fun r => r.email) h)
      simp [List.filter_cons, hne, ih hnd.2 h]

theorem selectByEmail_of_mem (db : Db) (u : UserRow) (hwf : db.WellFormed) (hu : u ∈ db.rows) :
    (db.selectByEmail u.email).rows = [u] := by
  unfold Db.selectByEmail
  exact take_one_filter_email db.rows u hwf.1 hu

theorem selectByEmail_of_absent (db : Db) (email : String)
    (habs : ∀ r ∈ db.rows, r.email ≠ email) :
    (db.selectByEmail email).rows = [] := by
  unfold Db.selectByEmail
  have : db.rows.filter (fun r => r.email == email) = [] := by
    rw [List.filter_eq_nil_iff]
    intro r hr
    simpa using habs r hr
  simp [this]

theorem insert_of_present (db : Db) (now : Nat) (name email password role : String)
    (hdup : ∃ r ∈ db.rows, r.email = email) :
    db.insert now name email password role = (db, .error uniqueViolation) := by
  have hany : db.rows.any (fun r => r.email == email) = true := by
    rw [List.any_eq_true]
    obtain ⟨r, hr, he⟩ := hdup
    exact ⟨r, hr, by simp [he]⟩
  simp [Db.insert, hany]

theorem insert_of_absent (db : Db) (now : Nat) (name email password role : String)
    (habs : ∀ r ∈ db.rows, r.email ≠ email) :
    db.insert now name email password role =
      ({ rows := db.rows ++ [{ id := db.nextId, name := name, email := email,
                               password := password, role := role, created_at := now }],
         nextId := db.nextId + 1 },
       .ok { id := db.nextId, name := name, email := email, password := password,
             role := role, created_at := now }) := by
  have hany : db.rows.any (fun r => r.email == email) = false := by
    rw [List.any_eq_false]
    intro r hr
    simpa using habs r hr
  simp [Db.insert, hany]

/-- Every outcome of an insert: rejected with the table untouched, or one row appended
that carries the given columns. -/
theorem insert_cases (db : Db) (now : Nat) (name email password role : String) :
    db.insert now name email password role = (db, .error uniqueViolation) ∨
    db.insert now name email password role =
      ({ rows := db.rows ++ [{ id := db.nextId, name := name, email := email,
                               password := password, role := role, created_at := now }],
         nextId := db.nextId + 1 },
       .ok { id := db.nextId, name := name, email := email, password := password,
             role := role, created_at := now }) := by
  unfold Db.insert
  split
  · exact Or.inl rfl
  · exact Or.inr rfl

/-- The insert keeps the uniqueness invariant of the store. -/
theorem insert_wellFormed (db : Db) (now : Nat) (name email password role : String)
    (hwf : db.WellFormed) : (db.insert now name email password role).1.WellFormed := by
  unfold Db.insert
  split
  · exact hwf
  · rename_i hany
    have habs : ∀ r ∈ db.rows, r.email ≠ email := by
      intro r hr he
      apply hany
      rw [List.any_eq_true]
      exact ⟨r, hr, by simp [he]⟩
    refine ⟨?_, ?_⟩
    · simp only [List.map_append, List.map_cons, List.map_nil]
      rw [List.nodup_append]
      refine ⟨hwf.1, List.nodup_singleton _, ?_⟩
      intro a ha hb
      rw [List.mem_singleton] at hb
      obtain ⟨r, hr, he⟩ := List.mem_map.mp ha
      exact habs r hr (he.trans hb)
    · intro r hr
      rcases List.mem_append.mp hr with h | h
      · exact Nat.lt_succ_of_lt (hwf.2 r h)
      · rw [List.mem_singleton] at h
        subst h
        exact Nat.lt_succ_self _

/-! ## Lemmas on the services -/

/-- The guard of `createUser` is never taken: `.length` of the query builder is
`undefined`. -/
theorem createUser_guard (q : Query) : jsGt (Selected.pending q).length 0 = false := rfl

theorem createUser_eq (E : Env) (db : Db) (now : Nat) (d : SignUpData) :
    createUser E db now d =
      match hashPassword E d.password with
      | .error e => (db, .error e)
      | .ok hashedPassword =>
        match db.insert now d.name d.email hashedPassword (d.role.getD "user") with
        | (db', .error e) => (db', .error e)
        | (db', .ok row) =>
          (db', .ok { id := row.id, name := row.name, email := row.email, role := row.role,
                      created_at := row.created_at }) := by
  simp [createUser, createUser_guard]

/-- The three outcomes of `createUser`: hashing failed, the store rejected the insert,
or the row was appended. In the first two the store is untouched. -/
theorem createUser_cases (E : Env) (db : Db) (now : Nat) (d : SignUpData) :
    createUser E db now d = (db, .error "Password hashing failed") ∨
    createUser E db now d = (db, .error uniqueViolation) ∨
    ∃ h, E.bcryptHash d.password 10 = some h ∧
      createUser E db now d =
        ({ rows := db.rows ++ [{ id := db.nextId, name := d.name, email := d.email,
                                 password := h, role := d.role.getD "user",
                                 created_at := now }],
           nextId := db.nextId + 1 },
         .ok { id := db.nextId, name := d.name, email := d.email,
               role := d.role.getD "user", created_at := now }) := by
  rw [createUser_eq]
  unfold hashPassword
  cases hh : E.bcryptHash d.password 10 with
  | none => exact Or.inl rfl
  | some h =>
    rcases insert_cases db now d.name d.email h (d.role.getD "user") with hi | hi
    · right; left
      simp [hi]
    · right; right
      exact ⟨h, rfl, by simp [hi]⟩

theorem authenticateUser_of_mem (E : Env) (db : Db) (u : UserRow) (password : String)
    (hwf : db.WellFormed) (hu : u ∈ db.rows) :
    authenticateUser E db u.email password =
      match E.bcryptCompare password u.password with
      | none => .error "Password comparison failed"
      | some true =>
        .ok { id := u.id, name := u.name, email := u.email, role := u.role,
              created_at := u.created_at }
      | some false => .error "Invalid password" := by
  unfold authenticateUser
  rw [selectByEmail_of_mem db u hwf hu]
  unfold comparePassword
  cases hc : E.bcryptCompare password u.password with
  | none => simp [Selected.length, Selected.first, jsStrictEq, hc]
  | some b => cases b <;> simp [Selected.length, Selected.first, jsStrictEq, hc]

theorem authenticateUser_of_absent (E : Env) (db : Db) (email password : String)
    (habs : ∀ r ∈ db.rows, r.email ≠ email) :
    authenticateUser E db email password = .error "User not found" := by
  unfold authenticateUser
  rw [selectByEmail_of_absent db email habs]
  simp [Selected.length, jsStrictEq]

/-! ## Lemmas on the token service -/

theorem sign_eq (E : Env) (now : Nat) (c : Claims) :
    jwttoken.sign E now c =
      match E.hs256 (JWT_SECRET E)
          { id := c.id, email := c.email, role := c.role, iat := now / 1000,
            exp := now / 1000 + JWT_EXPIRES_IN } with
      | some sig =>
        .ok { payload := { id := c.id, email := c.email, role := c.role, iat := now / 1000,
                           exp := now / 1000 + JWT_EXPIRES_IN },
              signature := sig }
      | none => .error "Failed to Authenticate Token" := by
  unfold jwttoken.sign jwtSign
  cases hs : E.hs256 (JWT_SECRET E)
      { id := c.id, email := c.email, role := c.role, iat := now / 1000,
        exp := now / 1000 + JWT_EXPIRES_IN } <;> simp [hs]

/-- A token that `jwttoken.sign` returned carries the claims, the issue time and the
expiry one day later, under the signature of the server secret. -/
theorem sign_ok_inv (E : Env) (now : Nat) (c : Claims) (tok : Token)
    (h : jwttoken.sign E now c = .ok tok) :
    tok.payload = { id := c.id, email := c.email, role := c.role, iat := now / 1000,
                    exp := now / 1000 + JWT_EXPIRES_IN } ∧
    E.hs256 (JWT_SECRET E) tok.payload = some tok.signature := by
  rw [sign_eq] at h
  cases hs : E.hs256 (JWT_SECRET E)
      { id := c.id, email := c.email, role := c.role, iat := now / 1000,
        exp := now / 1000 + JWT_EXPIRES_IN } with
  | none => simp [hs] at h
  | some sig =>
    simp only [hs, Except.ok.injEq] at h
    subst h
    exact ⟨rfl, hs⟩

theorem verify_of_signed (E : Env) (now : Nat) (tok : Token)
    (hsig : E.hs256 (JWT_SECRET E) tok.payload = some tok.signature) :
    jwttoken.verify E now tok =
      if now / 1000 ≥ tok.payload.exp then .error "Failed to Verify Token"
      else .ok tok.payload := by
  unfold jwttoken.verify jwtVerify
  rw [hsig]
  by_cases hexp : now / 1000 ≥ tok.payload.exp <;> simp [hexp]

theorem verify_of_forged (E : Env) (now : Nat) (tok : Token)
    (hsig : E.hs256 (JWT_SECRET E) tok.payload ≠ some tok.signature) :
    jwttoken.verify E now tok = .error "Failed to Verify Token" := by
  unfold jwttoken.verify jwtVerify
  cases hs : E.hs256 (JWT_SECRET E) tok.payload with
  | none => rfl
  | some sig =>
    have hne : sig ≠ tok.signature := by
      intro heq
      exact hsig (by rw [hs, heq])
    simp [hne]

/-! ## Registration of an email that is already stored -/

/-- Claim C1, evaluated on the code: Ann registers on the empty store and gets 201; the
same registration is then repeated on the resulting store. In the second run
`createUser` does not fail with `User with this email already exists`: its guard is not
taken, the insert is attempted and the store rejects it, so the error carries the
message of the store, and `signUp` writes no status (in particular not 409) and passes
that error to `next`. -/
theorem signUp_twice_second_is_forwarded :
    (signUp sampleEnv emptyDb 0 annSignUp).2.status = some 201 ∧
    (signUp sampleEnv emptyDb 0 annSignUp).1 = annDb ∧
    createUser sampleEnv annDb 1000
        { name := "Ann", email := "a@x.com", password := "secret123", role := none }
      = (annDb, .error uniqueViolation) ∧
    uniqueViolation ≠ "User with this email already exists" ∧
    signUp sampleEnv annDb 1000 annSignUp =
      (annDb, { status := none, body := none, cookieOps := [],
                forwarded := some uniqueViolation }) ∧
    (signUp sampleEnv annDb 1000 annSignUp).2.status ≠ some 409 := by
  refine ⟨by decide, by decide, rfl, by decide, by decide, by decide⟩

/-! ## Authentication -/

/-- Claim C2: for a store satisfying its uniqueness invariant, a stored user `u` and a
sign-in payload with the email of `u` and a password that bcrypt accepts against the
stored hash, `authenticateUser` returns the columns of `u`; provided the signing
primitive works, `signIn` answers 200, leaves the store as it is and sets the cookie
`token` to a token that `jwttoken.verify` accepts at any time before its expiry,
yielding the id, email and role of `u`. -/
theorem signIn_registered_ok (E : Env) (db : Db) (now later : Nat) (req : Request)
    (data : SignInData) (u : UserRow)
    (hwf : db.WellFormed) (hu : u ∈ db.rows)
    (hreq : E.signInSchema req.body = .ok data) (hemail : data.email = u.email)
    (hpw : E.bcryptCompare data.password u.password = some true)
    (hprim : (E.hs256 (JWT_SECRET E)
        { id := u.id, email := u.email, role := u.role, iat := now / 1000,
          exp := now / 1000 + JWT_EXPIRES_IN }).isSome = true)
    (hlater : later < (now / 1000 + JWT_EXPIRES_IN) * 1000) :
    authenticateUser E db data.email data.password =
      .ok { id := u.id, name := u.name, email := u.email, role := u.role,
            created_at := u.created_at } ∧
    ∃ t : Token,
      signIn E db now req =
        (db, { status := some 200,
               body := some [("message", .scalar (.str "User signed in")),
                             ("user", .obj [("id", .num u.id), ("name", .str u.name),
                                            ("email", .str u.email),
                                            ("role", .str u.role)])],
               cookieOps := [CookieOp.set "token" t (cookies.getOptions E)],
               forwarded := none }) ∧
      ∃ p : JwtPayload, jwttoken.verify E later t = .ok p ∧
        p.id = u.id ∧ p.email = u.email ∧ p.role = u.role := by
  have hauth : authenticateUser E db data.email data.password =
      .ok { id := u.id, name := u.name, email := u.email, role := u.role,
            created_at := u.created_at } := by
    rw [hemail, authenticateUser_of_mem E db u data.password hwf hu, hpw]
  refine ⟨hauth, ?_⟩
  obtain ⟨sig, hsig⟩ := Option.isSome_iff_exists.mp hprim
  have hsign : jwttoken.sign E now { id := u.id, email := u.email, role := u.role } =
      .ok { payload := { id := u.id, email := u.email, role := u.role, iat := now / 1000,
                         exp := now / 1000 + JWT_EXPIRES_IN },
            signature := sig } := by
    rw [sign_eq]
    simp [hsig]
  refine ⟨{ payload := { id := u.id, email := u.email, role := u.role, iat := now / 1000,
                         exp := now / 1000 + JWT_EXPIRES_IN },
            signature := sig }, ?_,
          { id := u.id, email := u.email, role := u.role, iat := now / 1000,
            exp := now / 1000 + JWT_EXPIRES_IN }, ?_, rfl, rfl, rfl⟩
  · simp [signIn, hreq, hauth, hsign, cookies.set, Response.json, Response.fresh, userJson]
  · rw [verify_of_signed E later _ hsig]
    have hnot : ¬ (later / 1000 ≥ now / 1000 + JWT_EXPIRES_IN) := by
      unfold JWT_EXPIRES_IN at hlater ⊢
      omega
    simp [hnot]

/-- Witness of `signIn_registered_ok`: Ann signs in with her password five seconds
after the epoch and the token is checked one hour later. -/
theorem signIn_registered_ok_witness :
    authenticateUser sampleEnv annDb "a@x.com" "secret123" =
      .ok { id := 1, name := "Ann", email := "a@x.com", role := "user", created_at := 0 } ∧
    ∃ t : Token,
      signIn sampleEnv annDb 5000 (signInReq "a@x.com" "secret123") =
        (annDb, { status := some 200,
                  body := some [("message", .scalar (.str "User signed in")),
                                ("user", .obj [("id", .num 1), ("name", .str "Ann"),
                                               ("email", .str "a@x.com"),
                                               ("role", .str "user")])],
                  cookieOps := [CookieOp.set "token" t (cookies.getOptions sampleEnv)],
                  forwarded := none }) ∧
      ∃ p : JwtPayload, jwttoken.verify sampleEnv 3605000 t = .ok p ∧
        p.id = 1 ∧ p.email = "a@x.com" ∧ p.role = "user" :=
  signIn_registered_ok sampleEnv annDb 5000 3605000 (signInReq "a@x.com" "secret123")
    { email := "a@x.com", password := "secret123" } annRow
    ⟨by decide, by decide⟩ (by decide) rfl rfl (by decide) (by decide) (by decide)

/-- Claim C3: for a valid sign-in payload, when the email belongs to a stored user and
bcrypt reports that the password does not match the stored hash, `signIn` answers 401
with body exactly `error: Invalid credentials`, sets no cookie and forwards nothing;
on any store where the email is not registered the response to the same request is the
same in status, body and cookie instructions. -/
theorem signIn_wrong_password_same_as_unknown (E : Env) (db db' : Db) (now now' : Nat)
    (req : Request) (data : SignInData) (u : UserRow)
    (hreq : E.signInSchema req.body = .ok data)
    (hwf : db.WellFormed) (hu : u ∈ db.rows) (hemail : data.email = u.email)
    (hbad : E.bcryptCompare data.password u.password = some false)
    (habs : ∀ r ∈ db'.rows, r.email ≠ data.email) :
    signIn E db now req =
      (db, { status := some 401,
             body := some [("error", .scalar (.str "Invalid credentials"))],
             cookieOps := [], forwarded := none }) ∧
    signIn E db' now' req =
      (db', { status := some 401,
              body := some [("error", .scalar (.str "Invalid credentials"))],
              cookieOps := [], forwarded := none }) ∧
    (signIn E db now req).2 = (signIn E db' now' req).2 := by
  have h1 : authenticateUser E db data.email data.password = .error "Invalid password" := by
    rw [hemail, authenticateUser_of_mem E db u data.password hwf hu, hbad]
  have h2 : authenticateUser E db' data.email data.password = .error "User not found" :=
    authenticateUser_of_absent E db' data.email data.password habs
  have e1 : signIn E db now req =
      (db, { status := some 401,
             body := some [("error", .scalar (.str "Invalid credentials"))],
             cookieOps := [], forwarded := none }) := by
    simp [signIn, hreq, h1, signInCatch, Response.json, Response.fresh]
  have e2 : signIn E db' now' req =
      (db', { status := some 401,
              body := some [("error", .scalar (.str "Invalid credentials"))],
              cookieOps := [], forwarded := none }) := by
    simp [signIn, hreq, h2, signInCatch, Response.json, Response.fresh]
  exact ⟨e1, e2, by rw [e1, e2]⟩

/-- Witness of `signIn_wrong_password_same_as_unknown`: a wrong password for Ann on the
store holding her, and the same request on the empty store. -/
theorem signIn_wrong_password_same_as_unknown_witness :
    signIn sampleEnv annDb 0 (signInReq "a@x.com" "wrong") =
      (annDb, { status := some 401,
                body := some [("error", .scalar (.str "Invalid credentials"))],
                cookieOps := [], forwarded := none }) ∧
    signIn sampleEnv emptyDb 9 (signInReq "a@x.com" "wrong") =
      (emptyDb, { status := some 401,
                  body := some [("error", .scalar (.str "Invalid credentials"))],
                  cookieOps := [], forwarded := none }) ∧
    (signIn sampleEnv annDb 0 (signInReq "a@x.com" "wrong")).2 =
      (signIn sampleEnv emptyDb 9 (signInReq "a@x.com" "wrong")).2 :=
  signIn_wrong_password_same_as_unknown sampleEnv annDb emptyDb 0 9
    (signInReq "a@x.com" "wrong") { email := "a@x.com", password := "wrong" } annRow
    rfl ⟨by decide, by decide⟩ (by decide) rfl (by decide) (by decide)

/-! ## Token service -/

/-- Claim C4: for every claims object, provided the signing primitive works,
`jwttoken.sign` at time `t0` returns a token, and `jwttoken.verify` on that token at
any time before its expiry (the instant `exp`, one day after the issue second) succeeds
with a payload whose id, email and role are the input claims; the payload also carries
`iat` and `exp`. -/
theorem verify_sign_roundtrip (E : Env) (c : Claims) (t0 now : Nat)
    (hprim : (E.hs256 (JWT_SECRET E)
        { id := c.id, email := c.email, role := c.role, iat := t0 / 1000,
          exp := t0 / 1000 + JWT_EXPIRES_IN }).isSome = true)
    (hbefore : now < (t0 / 1000 + JWT_EXPIRES_IN) * 1000) :
    ∃ tok : Token, jwttoken.sign E t0 c = .ok tok ∧
      ∃ p : JwtPayload, jwttoken.verify E now tok = .ok p ∧ p.claims = c ∧
        p.iat = t0 / 1000 ∧ p.exp = t0 / 1000 + 24 * 60 * 60 := by
  obtain ⟨sig, hsig⟩ := Option.isSome_iff_exists.mp hprim
  refine ⟨{ payload := { id := c.id, email := c.email, role := c.role, iat := t0 / 1000,
                         exp := t0 / 1000 + JWT_EXPIRES_IN },
            signature := sig }, ?_,
          { id := c.id, email := c.email, role := c.role, iat := t0 / 1000,
            exp := t0 / 1000 + JWT_EXPIRES_IN }, ?_, rfl, rfl, rfl⟩
  · rw [sign_eq]
    simp [hsig]
  · rw [verify_of_signed E now _ hsig]
    have hnot : ¬ (now / 1000 ≥ t0 / 1000 + JWT_EXPIRES_IN) := by
      unfold JWT_EXPIRES_IN at hbefore ⊢
      omega
    simp [hnot]

/-- Witness of `verify_sign_roundtrip`: claims signed at 1.5 s and verified at the last
millisecond before the expiry. -/
theorem verify_sign_roundtrip_witness :
    ∃ tok : Token,
      jwttoken.sign sampleEnv 1500 { id := 7, email := "b@x.com", role := "admin" } = .ok tok ∧
      ∃ p : JwtPayload, jwttoken.verify sampleEnv 86400999 tok = .ok p ∧
        p.claims = { id := 7, email := "b@x.com", role := "admin" } ∧
        p.iat = 1500 / 1000 ∧ p.exp = 1500 / 1000 + 24 * 60 * 60 :=
  verify_sign_roundtrip sampleEnv { id := 7, email := "b@x.com", role := "admin" } 1500
    86400999 (by decide) (by decide)

/-- Claim C5: a token that `jwttoken.sign` produced at time `t0` is rejected by
`jwttoken.verify` with `Failed to Verify Token` at every time later than `t0` plus one
day, and so is, at every time, a token whose signature is not the one the server secret
gives for its payload. -/
theorem verify_rejects_expired_and_forged (E : Env) (c : Claims) (t0 now now' : Nat)
    (tok forged : Token)
    (hsign : jwttoken.sign E t0 c = .ok tok)
    (hlate : t0 + 24 * 60 * 60 * 1000 < now)
    (hforged : E.hs256 (JWT_SECRET E) forged.payload ≠ some forged.signature) :
    jwttoken.verify E now tok = .error "Failed to Verify Token" ∧
    jwttoken.verify E now' forged = .error "Failed to Verify Token" := by
  obtain ⟨hpay, hsig⟩ := sign_ok_inv E t0 c tok hsign
  refine ⟨?_, verify_of_forged E now' forged hforged⟩
  rw [verify_of_signed E now tok hsig]
  have hexp : now / 1000 ≥ tok.payload.exp := by
    rw [hpay]
    show now / 1000 ≥ t0 / 1000 + JWT_EXPIRES_IN
    unfold JWT_EXPIRES_IN
    omega
  simp [hexp]

/-- Witness of `verify_rejects_expired_and_forged`: a token signed at 1.5 s and checked
one millisecond after one day has passed, and a token with a signature of zero. -/
theorem verify_rejects_expired_and_forged_witness :
    jwttoken.verify sampleEnv 86401501
        { payload := { id := 7, email := "b@x.com", role := "admin", iat := 1, exp := 86401 },
          signature := 86462 }
      = .error "Failed to Verify Token" ∧
    jwttoken.verify sampleEnv 2000
        { payload := { id := 7, email := "b@x.com", role := "admin", iat := 1, exp := 86401 },
          signature := 0 }
      = .error "Failed to Verify Token" :=
  verify_rejects_expired_and_forged sampleEnv { id := 7, email := "b@x.com", role := "admin" }
    1500 86401501 2000 _ _ rfl (by decide) (by decide)

/-! ## Sign-out -/

/-- Claim C6: for every store and every request, whatever its body and `token` cookie,
`signOut` answers 200 with body `message: User signed out`, issues exactly one cookie
instruction, the clearing of `token`, forwards no error and returns the store it was
given; the result does not depend on the request. -/
theorem signOut_always_clears (E : Env) (db : Db) (req : Request) :
    signOut E db req =
      (db, { status := some 200,
             body := some [("message", .scalar (.str "User signed out"))],
             cookieOps := [CookieOp.clear "token" (cookies.getOptions E)],
             forwarded := none }) := by
  simp [signOut, cookies.clear, Response.json, Response.fresh]

/-! ## Lemmas on the handlers -/

theorem signUpCatch_status (msg : String) :
    (signUpCatch Response.fresh msg).status ≠ some 201 := by
  unfold signUpCatch
  split <;> simp [Response.json, Response.next, Response.fresh]

theorem signInCatch_status (msg : String) :
    (signInCatch Response.fresh msg).status ≠ some 200 := by
  unfold signInCatch
  split <;> simp [Response.json, Response.next, Response.fresh]

theorem signUpCatch_of_other (msg : String)
    (hne : msg ≠ "User with this email already exists") :
    signUpCatch Response.fresh msg =
      { status := none, body := none, cookieOps := [], forwarded := some msg } := by
  simp [signUpCatch, hne, Response.next, Response.fresh]

theorem find_of_take_one_filter (p : UserRow → Bool) (rows rest : List UserRow)
    (row : UserRow) (h : (rows.filter p).take 1 = row :: rest) :
    rows.find? p = some row := by
  induction rows with
  | nil => simp at h
  | cons a l ih =>
    by_cases hp : p a = true
    · simp [List.filter_cons, hp] at h
      obtain ⟨rfl, _⟩ := h
      simp [List.find?_cons, hp]
    · simp only [Bool.not_eq_true] at hp
      simp only [List.filter_cons, hp] at h
      simp only [List.find?_cons, hp]
      exact ih h

/-- A user that `authenticateUser` returns is the projection of the first stored row
with the requested email, and bcrypt accepted the password against its hash. -/
theorem authenticateUser_ok_inv (E : Env) (db : Db) (email password : String) (user : User)
    (h : authenticateUser E db email password = .ok user) :
    ∃ row : UserRow, db.rows.find? (fun r => r.email == email) = some row ∧
      E.bcryptCompare password row.password = some true ∧
      user = { id := row.id, name := row.name, email := row.email, role := row.role,
               created_at := row.created_at } := by
  unfold authenticateUser at h
  cases hsel : (db.selectByEmail email).rows with
  | nil => simp [hsel, Selected.length, jsStrictEq] at h
  | cons row rest =>
    have hfind : db.rows.find? (fun r => r.email == email) = some row :=
      find_of_take_one_filter _ db.rows rest row hsel
    refine ⟨row, hfind, ?_⟩
    unfold comparePassword at h
    cases hc : E.bcryptCompare password row.password with
    | none => simp [hsel, Selected.length, Selected.first, jsStrictEq, hc] at h
    | some b =>
      cases b with
      | false => simp [hsel, Selected.length, Selected.first, jsStrictEq, hc] at h
      | true =>
        simp [hsel, Selected.length, Selected.first, jsStrictEq, hc] at h
        exact ⟨rfl, h.symm⟩

/-- The interleaved handler with no other request in between is `signUp`. -/
theorem signUpInterleaved_id (E : Env) (db : Db) (now : Nat) (req : Request) :
    signUpInterleaved E id db now req = signUp E db now req := rfl

/-! ## Success bodies -/

/-- Claim C7: when `signUp` answers 201, the body was validated to `data`, the store
after the request is the store before it plus one row holding the name, email and role
of `data` with the hash of its password, and the `user` object of the body has exactly
the fields id, name, email and role with the values of that row, no field named
password, while the `token` cookie is set to the token signed for that row. When
`signIn` answers 200, the `user` object has exactly those four fields with the values
of the first stored row whose email is the email of the payload, whose hash bcrypt
accepted, no field named password, and the `token` cookie is set to the token signed
for that row. -/
theorem success_body_has_no_password (E : Env) (db : Db) (now : Nat) (req : Request) :
    ((signUp E db now req).2.status = some 201 →
      ∃ (data : SignUpData) (h : String) (t : Token) (fields : List (String × Scalar)),
        E.signUpSchema req.body = .ok data ∧
        E.bcryptHash data.password 10 = some h ∧
        (signUp E db now req).1.rows =
          db.rows ++ [{ id := db.nextId, name := data.name, email := data.email,
                        password := h, role := data.role.getD "user", created_at := now }] ∧
        (signUp E db now req).2.body =
          some [("message", .scalar (.str "User registered")), ("user", .obj fields)] ∧
        fields = [("id", .num db.nextId), ("name", .str data.name),
                  ("email", .str data.email), ("role", .str (data.role.getD "user"))] ∧
        keysOf fields = ["id", "name", "email", "role"] ∧ "password" ∉ keysOf fields ∧
        jwttoken.sign E now
          { id := db.nextId, email := data.email, role := data.role.getD "user" } = .ok t ∧
        (signUp E db now req).2.cookieOps =
          [CookieOp.set "token" t (cookies.getOptions E)]) ∧
    ((signIn E db now req).2.status = some 200 →
      ∃ (data : SignInData) (row : UserRow) (t : Token) (fields : List (String × Scalar)),
        E.signInSchema req.body = .ok data ∧
        db.rows.find? (fun r => r.email == data.email) = some row ∧
        E.bcryptCompare data.password row.password = some true ∧
        (signIn E db now req).2.body =
          some [("message", .scalar (.str "User signed in")), ("user", .obj fields)] ∧
        fields = [("id", .num row.id), ("name", .str row.name), ("email", .str row.email),
                  ("role", .str row.role)] ∧
        keysOf fields = ["id", "name", "email", "role"] ∧ "password" ∉ keysOf fields ∧
        jwttoken.sign E now { id := row.id, email := row.email, role := row.role } = .ok t ∧
        (signIn E db now req).2.cookieOps =
          [CookieOp.set "token" t (cookies.getOptions E)]) := by
  constructor
  · intro hUp
    have hUp' := hUp
    unfold signUp at hUp'
    cases hs : E.signUpSchema req.body with
    | error err => simp [hs, validationFailed, Response.json, Response.fresh] at hUp'
    | ok data =>
      simp only [hs] at hUp'
      rcases createUser_cases E db now data with hc | hc | ⟨h, hh, hc⟩
      · rw [hc] at hUp'
        exact absurd hUp' (signUpCatch_status _)
      · rw [hc] at hUp'
        exact absurd hUp' (signUpCatch_status _)
      · rw [hc] at hUp'
        simp only [sign_eq] at hUp'
        cases hsig : E.hs256 (JWT_SECRET E)
            { id := db.nextId, email := data.email, role := data.role.getD "user",
              iat := now / 1000, exp := now / 1000 + JWT_EXPIRES_IN } with
        | none =>
          simp only [hsig] at hUp'
          exact absurd hUp' (signUpCatch_status _)
        | some sig =>
          have hsign : jwttoken.sign E now
              { id := db.nextId, email := data.email, role := data.role.getD "user" } =
              .ok { payload := { id := db.nextId, email := data.email,
                                 role := data.role.getD "user", iat := now / 1000,
                                 exp := now / 1000 + JWT_EXPIRES_IN },
                    signature := sig } := by
            rw [sign_eq]
            simp [hsig]
          have hfull : signUp E db now req =
              ({ rows := db.rows ++ [{ id := db.nextId, name := data.name,
                                       email := data.email, password := h,
                                       role := data.role.getD "user", created_at := now }],
                 nextId := db.nextId + 1 },
               { status := some 201,
                 body := some [("message", .scalar (.str "User registered")),
                               ("user", .obj [("id", .num db.nextId),
                                              ("name", .str data.name),
                                              ("email", .str data.email),
                                              ("role", .str (data.role.getD "user"))])],
                 cookieOps := [CookieOp.set "token"
                   { payload := { id := db.nextId, email := data.email,
                                  role := data.role.getD "user", iat := now / 1000,
                                  exp := now / 1000 + JWT_EXPIRES_IN },
                     signature := sig } (cookies.getOptions E)],
                 forwarded := none }) := by
            simp [signUp, hs, hc, hsign, cookies.set, Response.json, Response.fresh, userJson]
          refine ⟨data, h, _, _, rfl, hh, ?_, ?_, rfl, rfl, by simp [keysOf], hsign, ?_⟩
          · rw [hfull]
          · rw [hfull]
          · rw [hfull]
  · intro hIn
    have hIn' := hIn
    unfold signIn at hIn'
    cases hs : E.signInSchema req.body with
    | error err => simp [hs, validationFailed, Response.json, Response.fresh] at hIn'
    | ok data =>
      simp only [hs] at hIn'
      cases ha : authenticateUser E db data.email data.password with
      | error msg =>
        simp only [ha] at hIn'
        exact absurd hIn' (signInCatch_status _)
      | ok user =>
        obtain ⟨row, hfind, hcmp, huser⟩ := authenticateUser_ok_inv E db _ _ user ha
        subst huser
        simp only [ha, sign_eq] at hIn'
        cases hsig : E.hs256 (JWT_SECRET E)
            { id := row.id, email := row.email, role := row.role,
              iat := now / 1000, exp := now / 1000 + JWT_EXPIRES_IN } with
        | none =>
          simp only [hsig] at hIn'
          exact absurd hIn' (signInCatch_status _)
        | some sig =>
          have hsign : jwttoken.sign E now
              { id := row.id, email := row.email, role := row.role } =
              .ok { payload := { id := row.id, email := row.email, role := row.role,
                                 iat := now / 1000, exp := now / 1000 + JWT_EXPIRES_IN },
                    signature := sig } := by
            rw [sign_eq]
            simp [hsig]
          have hfull : signIn E db now req =
              (db,
               { status := some 200,
                 body := some [("message", .scalar (.str "User signed in")),
                               ("user", .obj [("id", .num row.id), ("name", .str row.name),
                                              ("email", .str row.email),
                                              ("role", .str row.role)])],
                 cookieOps := [CookieOp.set "token"
                   { payload := { id := row.id, email := row.email, role := row.role,
                                  iat := now / 1000, exp := now / 1000 + JWT_EXPIRES_IN },
                     signature := sig } (cookies.getOptions E)],
                 forwarded := none }) := by
            simp [signIn, hs, ha, hsign, cookies.set, Response.json, Response.fresh, userJson]
          refine ⟨data, row, _, _, rfl, hfind, hcmp, ?_, rfl, rfl, by simp [keysOf], hsign, ?_⟩
          · rw [hfull]
          · rw [hfull]

/-- Witness of `success_body_has_no_password`: Bob registers on the store holding Ann,
and Bob signs in on the store holding Ann and Bob. -/
theorem success_body_has_no_password_witness :
    (∃ (data : SignUpData) (h : String) (t : Token) (fields : List (String × Scalar)),
        sampleEnv.signUpSchema bobSignUp.body = .ok data ∧
        sampleEnv.bcryptHash data.password 10 = some h ∧
        (signUp sampleEnv annDb 3 bobSignUp).1.rows =
          annDb.rows ++ [{ id := annDb.nextId, name := data.name, email := data.email,
                           password := h, role := data.role.getD "user", created_at := 3 }] ∧
        (signUp sampleEnv annDb 3 bobSignUp).2.body =
          some [("message", .scalar (.str "User registered")), ("user", .obj fields)] ∧
        fields = [("id", .num annDb.nextId), ("name", .str data.name),
                  ("email", .str data.email), ("role", .str (data.role.getD "user"))] ∧
        keysOf fields = ["id", "name", "email", "role"] ∧ "password" ∉ keysOf fields ∧
        jwttoken.sign sampleEnv 3
          { id := annDb.nextId, email := data.email, role := data.role.getD "user" } = .ok t ∧
        (signUp sampleEnv annDb 3 bobSignUp).2.cookieOps =
          [CookieOp.set "token" t (cookies.getOptions sampleEnv)]) ∧
    (∃ (data : SignInData) (row : UserRow) (t : Token) (fields : List (String × Scalar)),
        sampleEnv.signInSchema (signInReq "b@x.com" "hunter22").body = .ok data ∧
        twoDb.rows.find? (fun r => r.email == data.email) = some row ∧
        sampleEnv.bcryptCompare data.password row.password = some true ∧
        (signIn sampleEnv twoDb 5000 (signInReq "b@x.com" "hunter22")).2.body =
          some [("message", .scalar (.str "User signed in")), ("user", .obj fields)] ∧
        fields = [("id", .num row.id), ("name", .str row.name), ("email", .str row.email),
                  ("role", .str row.role)] ∧
        keysOf fields = ["id", "name", "email", "role"] ∧ "password" ∉ keysOf fields ∧
        jwttoken.sign sampleEnv 5000 { id := row.id, email := row.email, role := row.role }
          = .ok t ∧
        (signIn sampleEnv twoDb 5000 (signInReq "b@x.com" "hunter22")).2.cookieOps =
          [CookieOp.set "token" t (cookies.getOptions sampleEnv)]) :=
  ⟨(success_body_has_no_password sampleEnv annDb 3 bobSignUp).1 (by decide),
   (success_body_has_no_password sampleEnv twoDb 5000 (signInReq "b@x.com" "hunter22")).2
     (by decide)⟩

/-! ## An insert that races past the pre-check -/

/-- Claim C8 fails on the code: the store holds Bob only, so a pre-check for `a@x.com`
finds no row; while the sign-up of Ann awaits the hash, another registration of
`a@x.com` completes; the store then rejects the insert of Ann with its
unique-constraint error, and `signUp` answers neither 409 nor the body
`error: Email already registered`: it writes no response and passes the store error
to `next`. -/
theorem signUp_raced_insert_not_409 :
    (bobDb.selectByEmail "a@x.com").rows = [] ∧
    (annArrives bobDb).insert 7 "Ann" "a@x.com" "h:secret123" "user" =
      (annArrives bobDb, .error uniqueViolation) ∧
    (signUpInterleaved sampleEnv annArrives bobDb 7 annSignUp).2.status ≠ some 409 ∧
    (signUpInterleaved sampleEnv annArrives bobDb 7 annSignUp).2.body ≠
      some [("error", .scalar (.str "Email already registered"))] ∧
    (signUpInterleaved sampleEnv annArrives bobDb 7 annSignUp).2 =
      { status := none, body := none, cookieOps := [], forwarded := some uniqueViolation } := by
  refine ⟨by decide, rfl, by decide, by decide, by decide⟩

/-- Claim C8 as amended: for every valid sign-up for which the select of the pre-check
yields no row (so the guard is not taken even on the awaited rows) and whose insert the
store then rejects with its unique-constraint error (a concurrent request stored the
email in between), `signUp` writes no status, no body and no cookie and passes the
store error to `next`; it adds no row. -/
theorem signUp_raced_insert_is_forwarded (E : Env) (others : Db → Db) (db : Db) (now : Nat)
    (req : Request) (data : SignUpData) (h : String)
    (hreq : E.signUpSchema req.body = .ok data)
    (hpre : (db.selectByEmail data.email).rows = [])
    (hhash : E.bcryptHash data.password 10 = some h)
    (hrej : ((others db).insert now data.name data.email h (data.role.getD "user")).2 =
      .error uniqueViolation) :
    jsGt (Selected.awaited (db.selectByEmail data.email).rows).length 0 = false ∧
    (signUpInterleaved E others db now req).2 =
      { status := none, body := none, cookieOps := [], forwarded := some uniqueViolation } ∧
    (signUpInterleaved E others db now req).1.rows = (others db).rows := by
  have hins : (others db).insert now data.name data.email h (data.role.getD "user") =
      (others db, .error uniqueViolation) := by
    rcases insert_cases (others db) now data.name data.email h (data.role.getD "user")
      with hi | hi
    · exact hi
    · rw [hi] at hrej
      cases hrej
  have hc : createUserInterleaved E others db now data =
      (others db, .error uniqueViolation) := by
    simp [createUserInterleaved, Selected.length, jsGt, hpre, hashPassword, hhash, hins]
  refine ⟨by rw [hpre]; rfl, ?_, ?_⟩
  · unfold signUpInterleaved
    simp only [hreq, hc]
    rw [signUpCatch_of_other uniqueViolation (by decide)]
  · unfold signUpInterleaved
    simp only [hreq, hc]

/-- Witness of `signUp_raced_insert_is_forwarded`: Ann signs up on the store holding
Bob while another registration of her email completes. -/
theorem signUp_raced_insert_is_forwarded_witness :
    jsGt (Selected.awaited (bobDb.selectByEmail "a@x.com").rows).length 0 = false ∧
    (signUpInterleaved sampleEnv annArrives bobDb 3 annSignUp).2 =
      { status := none, body := none, cookieOps := [], forwarded := some uniqueViolation } ∧
    (signUpInterleaved sampleEnv annArrives bobDb 3 annSignUp).1.rows =
      (annArrives bobDb).rows :=
  signUp_raced_insert_is_forwarded sampleEnv annArrives bobDb 3 annSignUp
    { name := "Ann", email := "a@x.com", password := "secret123", role := none }
    "h:secret123" rfl (by decide) rfl rfl

/-! ## Validation failures -/

/-- Claim C9: when the sign-up schema rejects the body, `signUp` answers 400 with error
`Validation Failed` and the formatted details, and when the sign-in schema rejects the
body so does `signIn`; in both the store is returned unchanged, no cookie instruction
is issued (so no token) and nothing is forwarded, whatever the store, the clock and the
hashing and signing primitives are. -/
theorem rejected_body_gets_400 (E : Env) (db db2 : Db) (now now2 : Nat) (req req2 : Request)
    (err err2 : String)
    (hUp : E.signUpSchema req.body = .error err)
    (hIn : E.signInSchema req2.body = .error err2) :
    signUp E db now req =
      (db, { status := some 400,
             body := some [("error", .scalar (.str "Validation Failed")),
                           ("details", .scalar (.str (E.formatValidationError err)))],
             cookieOps := [], forwarded := none }) ∧
    signIn E db2 now2 req2 =
      (db2, { status := some 400,
              body := some [("error", .scalar (.str "Validation Failed")),
                            ("details", .scalar (.str (E.formatValidationError err2)))],
              cookieOps := [], forwarded := none }) := by
  constructor
  · simp [signUp, hUp, validationFailed, Response.json, Response.fresh]
  · simp [signIn, hIn, validationFailed, Response.json, Response.fresh]

/-- Witness of `rejected_body_gets_400`: the empty body, on the store holding Ann. -/
theorem rejected_body_gets_400_witness :
    signUp sampleEnv annDb 0 emptyReq =
      (annDb, { status := some 400,
                body := some [("error", .scalar (.str "Validation Failed")),
                              ("details", .scalar (.str "Required"))],
                cookieOps := [], forwarded := none }) ∧
    signIn sampleEnv annDb 1 emptyReq =
      (annDb, { status := some 400,
                body := some [("error", .scalar (.str "Validation Failed")),
                              ("details", .scalar (.str "Required"))],
                cookieOps := [], forwarded := none }) :=
  rejected_body_gets_400 sampleEnv annDb annDb 0 1 emptyReq emptyReq "Required" "Required"
    rfl rfl

/-! ## Side effects of a failed registration -/

/-- Claim C10 fails on the code: with a signing primitive that throws, the registration
of Ann on the empty store ends in the failure `Failed to Authenticate Token` passed to
`next`, with no status written, and the store then holds the row `createUser`
inserted. -/
theorem signUp_sign_failure_keeps_row :
    signUp brokenSignEnv emptyDb 0 annSignUp =
      ({ rows := [{ id := 1, name := "Ann", email := "a@x.com", password := "h:secret123",
                    role := "user", created_at := 0 }],
         nextId := 2 },
       { status := none, body := none, cookieOps := [],
         forwarded := some "Failed to Authenticate Token" }) ∧
    (signUp brokenSignEnv emptyDb 0 annSignUp).2.status ≠ some 201 ∧
    (signUp brokenSignEnv emptyDb 0 annSignUp).1 ≠ emptyDb := by
  refine ⟨by decide, by decide, by decide⟩

/-- Claim C10 as amended: when `signUp` does not answer 201, either the failure is not
a signing error (validation failure, hashing error, insert rejected by the store) and
the store is the one before the request, or `jwttoken.sign` failed and the store is the
one before the request plus the one row `createUser` inserted. -/
theorem signUp_failure_store (E : Env) (db : Db) (now : Nat) (req : Request)
    (hfail : (signUp E db now req).2.status ≠ some 201) :
    ((signUp E db now req).2.forwarded ≠ some "Failed to Authenticate Token" ∧
      (signUp E db now req).1 = db) ∨
    ((signUp E db now req).2.forwarded = some "Failed to Authenticate Token" ∧
      ∃ row : UserRow,
        (signUp E db now req).1 = { rows := db.rows ++ [row], nextId := db.nextId + 1 }) := by
  unfold signUp at hfail ⊢
  cases hs : E.signUpSchema req.body with
  | error err =>
    left
    simp [validationFailed, Response.json, Response.fresh]
  | ok data =>
    simp only [hs] at hfail ⊢
    rcases createUser_cases E db now data with hc | hc | ⟨h, _, hc⟩
    · left
      rw [hc]
      show (signUpCatch Response.fresh "Password hashing failed").forwarded ≠ _ ∧ db = db
      rw [signUpCatch_of_other "Password hashing failed" (by decide)]
      exact ⟨by decide, rfl⟩
    · left
      rw [hc]
      show (signUpCatch Response.fresh uniqueViolation).forwarded ≠ _ ∧ db = db
      rw [signUpCatch_of_other uniqueViolation (by decide)]
      exact ⟨by decide, rfl⟩
    · rw [hc] at hfail ⊢
      simp only [sign_eq] at hfail ⊢
      cases hsig : E.hs256 (JWT_SECRET E)
          { id := db.nextId, email := data.email, role := data.role.getD "user",
            iat := now / 1000, exp := now / 1000 + JWT_EXPIRES_IN } with
      | none =>
        right
        simp only [hsig]
        rw [signUpCatch_of_other "Failed to Authenticate Token" (by decide)]
        exact ⟨rfl, _, rfl⟩
      | some sig =>
        simp [hsig, cookies.set, Response.json, Response.fresh] at hfail

/-- Witness of `signUp_failure_store`: the registration of Ann on the store that
already holds her fails and leaves the store as it was. -/
theorem signUp_failure_store_witness :
    ((signUp sampleEnv annDb 0 annSignUp).2.forwarded ≠ some "Failed to Authenticate Token" ∧
      (signUp sampleEnv annDb 0 annSignUp).1 = annDb) ∨
    ((signUp sampleEnv annDb 0 annSignUp).2.forwarded = some "Failed to Authenticate Token" ∧
      ∃ row : UserRow,
        (signUp sampleEnv annDb 0 annSignUp).1 =
          { rows := annDb.rows ++ [row], nextId := annDb.nextId + 1 }) :=
  signUp_failure_store sampleEnv annDb 0 annSignUp (by decide)

end Acquisitions
